import Mathlib

/-!
Verification of the field-comparison and scoring engine of the
flight-agent evaluation repository.

The embedding follows the source:
  * `compareField`, `compareAllFields`, `timeToMinutes`, `getTimeDiffMinutes`
    from `eval-final.js` (lines 345-435, first variant);
  * `isSameFamily` and `AIRCRAFT_FAMILIES` from the aircraft-utils module;
  * `calculateFieldMetrics`, `calculateAllMetrics` (overall weighted F1) and
    `getSummaryStats` from the metrics module.

JavaScript values that flow through these functions are either strings,
`null` or `undefined`; they are modelled by `JsVal`.  `Number(...)`
applied to the substrings produced by `split(':')` is modelled by
`jsNumber` at exact rational precision, covering the whole string grammar
`Number` accepts: whitespace trimming, the empty string as `0`, signed
decimal literals with fractional part and exponent, and the `0x`/`0o`/`0b`
radix literals.  `none` stands for `NaN`; `Infinity` (whether parsed from
the literal word or produced by `getTimeDiffMinutes` when a side is
`null`) is also collapsed to `none`, because the source only ever asks
whether the difference is `<= 15` or `<= 30`, and both are false for an
infinite difference exactly as for `NaN`.  JavaScript evaluates numbers
as IEEE doubles while the model is exact-rational: the two agree on every
digit-run `HH:MM` string (all intermediate values are integers far below
2^53, where doubles are exact), and the theorems below quantify only over
such strings or over the code's own parse results.
-/

/-- A JavaScript value reaching the comparison engine: a string, `null`,
or `undefined` (a missing object property). -/
inductive JsVal where
  | vnull : JsVal
  | vundefined : JsVal
  | vstr : String → JsVal
deriving DecidableEq, Repr

/-- JavaScript truthiness restricted to `JsVal`: `null`, `undefined` and
the empty string are falsy. -/
def truthy : JsVal → Bool
  | .vstr s => s ≠ ""
  | _ => false

/-- JavaScript strict equality `===` restricted to `JsVal`. -/
def jsEq : JsVal → JsVal → Bool
  | .vstr a, .vstr b => a = b
  | .vnull, .vnull => true
  | .vundefined, .vundefined => true
  | _, _ => false

/-- Result of comparing one field: `match` (tri-state, `none` models the
JavaScript `null` used for "excluded from scoring") and `grade`
(`none` models `null`). Field `match_` because `match` is a Lean keyword. -/
structure FieldComparison where
  match_ : Option Bool
  grade : Option ℚ
deriving DecidableEq, Repr

/-- The static `AIRCRAFT_FAMILIES` table from the aircraft-utils module. -/
def AIRCRAFT_FAMILIES : List (String × List String) :=
  [("Boeing 737", ["Boeing 737NG", "Boeing 737MAX", "Boeing 717"]),
   ("Boeing 777", ["Boeing 777", "Boeing 777-200", "Boeing 777-300ER"]),
   ("Boeing 787", ["Boeing 787", "Boeing 787-8", "Boeing 787-9", "Boeing 787-10"]),
   ("Boeing 747", ["Boeing 747", "Boeing 747-400", "Boeing 747-8"]),
   ("Boeing 757", ["Boeing 757", "Boeing 757-200", "Boeing 757-300"]),
   ("Boeing 767", ["Boeing 767", "Boeing 767-300", "Boeing 767-400"]),
   ("Airbus A320", ["Airbus A319", "Airbus A320", "Airbus A321"]),
   ("Airbus A330", ["Airbus A330", "Airbus A330-200", "Airbus A330-300", "Airbus A330-900"]),
   ("Airbus A350", ["Airbus A350", "Airbus A350-900", "Airbus A350-1000"]),
   ("Airbus A380", ["Airbus A380", "Airbus A380-800"]),
   ("Embraer E170", ["Embraer E170", "Embraer E175"]),
   ("Embraer E190", ["Embraer E190", "Embraer E195"]),
   ("Embraer E175-E2", ["Embraer E175-E2", "Embraer E170-E2"]),
   ("Embraer E190-E2", ["Embraer E190-E2", "Embraer E195-E2"]),
   ("Bombardier CRJ", ["Bombardier CRJ", "Bombardier CRJ-200", "Bombardier CRJ-700", "Bombardier CRJ-900"]),
   ("ATR 42/72", ["ATR 42/72", "ATR 42", "ATR 72"]),
   ("DHC Dash 8", ["DHC Dash 8", "DHC Dash 8-400"])]

/-- `Array.includes` on a member list: only a string can be a member. -/
def memberOf (v : JsVal) (members : List String) : Bool :=
  match v with
  | .vstr s => members.contains s
  | _ => false

/-- `isSameFamily` from the aircraft-utils module: falsy arguments never
match; strictly equal values match; otherwise both must appear in the
member list of one family of `AIRCRAFT_FAMILIES`. -/
def isSameFamily (a1 a2 : JsVal) : Bool :=
  if ¬ truthy a1 ∨ ¬ truthy a2 then false
  else if jsEq a1 a2 then true
  else AIRCRAFT_FAMILIES.any (fun fam => memberOf a1 fam.2 && memberOf a2 fam.2)

/-- `String.split(':')` of JavaScript: every occurrence of `':'` separates
a (possibly empty) part. -/
def splitColonAux : List Char → List Char → List String
  | [], acc => [String.mk acc.reverse]
  | c :: rest, acc =>
      if c = ':' then String.mk acc.reverse :: splitColonAux rest []
      else splitColonAux rest (c :: acc)

def splitColon (s : String) : List String :=
  splitColonAux s.data []

/-- Whitespace stripped by `Number()` (the ASCII code points; the exotic
Unicode spaces it also strips never occur in flight data). -/
def isWsChar (c : Char) : Bool :=
  c = ' ' ∨ c = '\t' ∨ c = '\n' ∨ c = '\r' ∨ c = '\x0b' ∨ c = '\x0c'

/-- Strip leading and trailing whitespace, as `Number()` does before
parsing. -/
def trimWs (cs : List Char) : List Char :=
  ((cs.dropWhile isWsChar).reverse.dropWhile isWsChar).reverse

/-- Value of a decimal digit run. -/
def digitsVal (cs : List Char) : Nat :=
  cs.foldl (fun acc c => acc * 10 + (c.toNat - 48)) 0

def isHexDigit (c : Char) : Bool :=
  c.isDigit ∨ ('a' ≤ c ∧ c ≤ 'f') ∨ ('A' ≤ c ∧ c ≤ 'F')

def hexVal (cs : List Char) : Nat :=
  cs.foldl (fun acc c =>
    acc * 16 + (if c.isDigit then c.toNat - 48
                else if 'a' ≤ c ∧ c ≤ 'f' then c.toNat - 87
                else c.toNat - 55)) 0

def isOctDigit (c : Char) : Bool := '0' ≤ c ∧ c ≤ '7'

def octVal (cs : List Char) : Nat :=
  cs.foldl (fun acc c => acc * 8 + (c.toNat - 48)) 0

def isBinDigit (c : Char) : Bool := c = '0' ∨ c = '1'

def binVal (cs : List Char) : Nat :=
  cs.foldl (fun acc c => acc * 2 + (c.toNat - 48)) 0

/-- The optional exponent suffix of a decimal literal: nothing means
exponent 0; `e`/`E`, an optional sign and a nonempty digit run mean that
exponent; any other remainder makes the literal invalid (`NaN`). -/
def parseExpPart : List Char → Option Int
  | [] => some 0
  | c :: rest =>
      if c = 'e' ∨ c = 'E' then
        match rest with
        | '+' :: ds => if ds ≠ [] ∧ ds.all Char.isDigit then some (digitsVal ds) else none
        | '-' :: ds => if ds ≠ [] ∧ ds.all Char.isDigit then some (-(digitsVal ds : Int)) else none
        | ds => if ds ≠ [] ∧ ds.all Char.isDigit then some (digitsVal ds) else none
      else none

/-- An unsigned decimal literal of `Number()`:
`Digits [. Digits] [Exponent]` or `. Digits [Exponent]`, valued exactly. -/
def parseDecimal (cs : List Char) : Option ℚ :=
  let ip := cs.takeWhile Char.isDigit
  let rest1 := cs.dropWhile Char.isDigit
  match rest1 with
  | '.' :: rest2 =>
      let fp := rest2.takeWhile Char.isDigit
      let rest3 := rest2.dropWhile Char.isDigit
      if ip = [] ∧ fp = [] then none
      else (parseExpPart rest3).map (fun e =>
        ((digitsVal ip : ℚ) + (digitsVal fp : ℚ) / (10 : ℚ) ^ fp.length) * (10 : ℚ) ^ e)
  | rest2 =>
      if ip = [] then none
      else (parseExpPart rest2).map (fun e => (digitsVal ip : ℚ) * (10 : ℚ) ^ e)

/-- `Number(s)` on a string, at exact rational precision: trim whitespace;
an empty remainder is `0`; `0x`/`0o`/`0b` radix literals (no sign allowed)
are integers; otherwise an optional sign followed by a decimal literal.
Anything else is `NaN`, `none` here; the `Infinity` literals are also
mapped to `none` (see the header comment: an infinite minute difference
and a `NaN` one fail the `<= 15` and `<= 30` tests alike). -/
def jsNumber (s : String) : Option ℚ :=
  let cs := trimWs s.data
  if cs = [] then some 0
  else if cs.take 2 = ['0', 'x'] ∨ cs.take 2 = ['0', 'X'] then
    (if cs.drop 2 ≠ [] ∧ (cs.drop 2).all isHexDigit then some (hexVal (cs.drop 2)) else none)
  else if cs.take 2 = ['0', 'o'] ∨ cs.take 2 = ['0', 'O'] then
    (if cs.drop 2 ≠ [] ∧ (cs.drop 2).all isOctDigit then some (octVal (cs.drop 2)) else none)
  else if cs.take 2 = ['0', 'b'] ∨ cs.take 2 = ['0', 'B'] then
    (if cs.drop 2 ≠ [] ∧ (cs.drop 2).all isBinDigit then some (binVal (cs.drop 2)) else none)
  else if cs.head? = some '+' then
    (if cs.tail = "Infinity".data then none else parseDecimal cs.tail)
  else if cs.head? = some '-' then
    (if cs.tail = "Infinity".data then none else (parseDecimal cs.tail).map (fun q => -q))
  else if cs = "Infinity".data then none
  else parseDecimal cs

/-- `timeToMinutes` from `eval-final.js`: falsy input or the literal string
`'null'` gives `null`; otherwise split on `':'`, convert the first two
parts with `Number`, and return `hours * 60 + mins`.  `none` stands for
the JavaScript `null`, for a `NaN` total and for an infinite one (the
three are indistinguishable downstream, see the header comment). -/
def timeToMinutes (v : JsVal) : Option ℚ :=
  match v with
  | .vstr s =>
      if s = "" ∨ s = "null" then none
      else
        let parts := splitColon s
        match parts[0]?.bind jsNumber, parts[1]?.bind jsNumber with
        | some h, some m => some (h * 60 + m)
        | _, _ => none
  | _ => none

/-- `getTimeDiffMinutes` from `eval-final.js`: absolute difference in
minutes; `none` stands for `Infinity` (a side was `null`) and for a `NaN`
difference. -/
def getTimeDiffMinutes (t1 t2 : JsVal) : Option ℚ :=
  match timeToMinutes t1, timeToMinutes t2 with
  | some a, some b => some |a - b|
  | _, _ => none

/-- A parseable `HH:MM` duration string: a nonempty decimal digit run, one
`':'`, a nonempty decimal digit run (at most 14 digits each, so that the
exact rational parse and JavaScript's double arithmetic coincide: all
intermediate values are integers below 2^53). -/
def isHHMM (s : String) : Bool :=
  match splitColon s with
  | [h, m] =>
      h.data ≠ [] ∧ h.data.all Char.isDigit ∧ h.data.length ≤ 14 ∧
      m.data ≠ [] ∧ m.data.all Char.isDigit ∧ m.data.length ≤ 14
  | _ => false

/-- The seven field names, in the order `compareAllFields` iterates them. -/
def allFields : List String :=
  ["flightNumber", "airlineCode", "departureAirportCode",
   "arrivalAirportCode", "flightDate", "aircraftName", "flightTime"]

/-- `compareField` from `eval-final.js` (first variant, lines 373-418).
The null/`'null'` short-circuit precedes the per-field switch. -/
def compareField (field : String) (extracted groundTruth : JsVal) : FieldComparison :=
  if ¬ truthy extracted ∨ extracted = .vstr "null" then
    ⟨some false, some 0⟩
  else if field = "flightNumber" then
    ⟨none, none⟩
  else if field = "airlineCode" ∨ field = "departureAirportCode" ∨
          field = "arrivalAirportCode" ∨ field = "flightDate" then
    if jsEq extracted groundTruth then ⟨some true, some 1⟩ else ⟨some false, some 0⟩
  else if field = "aircraftName" then
    if jsEq extracted groundTruth then ⟨some true, some 1⟩
    else if isSameFamily extracted groundTruth then ⟨some true, some (8/10)⟩
    else ⟨some false, some 0⟩
  else if field = "flightTime" then
    match getTimeDiffMinutes extracted groundTruth with
    | some diff =>
        if diff ≤ 15 then ⟨some true, some 1⟩
        else if diff ≤ 30 then ⟨some true, some (7/10)⟩
        else ⟨some false, some 0⟩
    | none => ⟨some false, some 0⟩
  else
    ⟨some false, some 0⟩

/-- A flight record: the seven fields of the shared schema. -/
structure FlightRecord where
  flightNumber : JsVal
  airlineCode : JsVal
  departureAirportCode : JsVal
  arrivalAirportCode : JsVal
  flightDate : JsVal
  aircraftName : JsVal
  flightTime : JsVal
deriving DecidableEq, Repr

/-- Property access `record[field]` for the seven known field names;
any other name reads as `undefined`. -/
def getField (r : FlightRecord) (field : String) : JsVal :=
  if field = "flightNumber" then r.flightNumber
  else if field = "airlineCode" then r.airlineCode
  else if field = "departureAirportCode" then r.departureAirportCode
  else if field = "arrivalAirportCode" then r.arrivalAirportCode
  else if field = "flightDate" then r.flightDate
  else if field = "aircraftName" then r.aircraftName
  else if field = "flightTime" then r.flightTime
  else .vundefined

/-- `Object.values(record)` in insertion order. -/
def FlightRecord.values (r : FlightRecord) : List JsVal :=
  [r.flightNumber, r.airlineCode, r.departureAirportCode,
   r.arrivalAirportCode, r.flightDate, r.aircraftName, r.flightTime]

/-- The seven per-field comparison results of one case. -/
structure Comparison where
  flightNumber : FieldComparison
  airlineCode : FieldComparison
  departureAirportCode : FieldComparison
  arrivalAirportCode : FieldComparison
  flightDate : FieldComparison
  aircraftName : FieldComparison
  flightTime : FieldComparison
deriving DecidableEq, Repr

/-- Property access `comparison[field]`: `none` models the `undefined`
read for an unknown field name (guarded in the source by
`comparison && comparison[field]`). -/
def getComp (c : Comparison) (field : String) : Option FieldComparison :=
  if field = "flightNumber" then some c.flightNumber
  else if field = "airlineCode" then some c.airlineCode
  else if field = "departureAirportCode" then some c.departureAirportCode
  else if field = "arrivalAirportCode" then some c.arrivalAirportCode
  else if field = "flightDate" then some c.flightDate
  else if field = "aircraftName" then some c.aircraftName
  else if field = "flightTime" then some c.flightTime
  else none

/-- `Object.values(comparison)` in the insertion order of
`compareAllFields`. -/
def Comparison.values (c : Comparison) : List FieldComparison :=
  [c.flightNumber, c.airlineCode, c.departureAirportCode,
   c.arrivalAirportCode, c.flightDate, c.aircraftName, c.flightTime]

/-- `compareAllFields` from `eval-final.js`: one `compareField` call per
field, keys inserted in the order of `allFields`. -/
def compareAllFields (extracted groundTruth : FlightRecord) : Comparison where
  flightNumber := compareField "flightNumber" extracted.flightNumber groundTruth.flightNumber
  airlineCode := compareField "airlineCode" extracted.airlineCode groundTruth.airlineCode
  departureAirportCode :=
    compareField "departureAirportCode" extracted.departureAirportCode groundTruth.departureAirportCode
  arrivalAirportCode :=
    compareField "arrivalAirportCode" extracted.arrivalAirportCode groundTruth.arrivalAirportCode
  flightDate := compareField "flightDate" extracted.flightDate groundTruth.flightDate
  aircraftName := compareField "aircraftName" extracted.aircraftName groundTruth.aircraftName
  flightTime := compareField "flightTime" extracted.flightTime groundTruth.flightTime

/-- One element of the `results` array consumed by the aggregate scorer:
the extracted record, its seven field comparisons and its review flags
(the embedding covers results as the pipeline builds them, where
`extracted` and `comparison` are always present objects). -/
structure EvalResult where
  extracted : FlightRecord
  comparison : Comparison
  flags : List String
deriving DecidableEq, Repr

/-- The presence test of the metrics module:
`value !== null && value !== undefined && value !== 'null'`. -/
def presentVal : JsVal → Bool
  | .vnull => false
  | .vundefined => false
  | .vstr s => s ≠ "null"

/-- Per-field aggregate metrics (raw values; the formatted percent strings
of the source are presentation only). -/
structure FieldMetrics where
  total : Nat
  extracted : Nat
  correct : Nat
  precisionRaw : ℚ
  recallRaw : ℚ
  f1Raw : ℚ
deriving DecidableEq, Repr

/-- `calculateFieldMetrics` from the metrics module.  `.filter(...).length`
is written `countP`. -/
def calculateFieldMetrics (results : List EvalResult) (field : String) : FieldMetrics :=
  let total := results.length
  let extracted := results.countP (fun r => presentVal (getField r.extracted field))
  let correct := results.countP (fun r =>
    match getComp r.comparison field with
    | some c => c.match_ = some true
    | none => false)
  let precisionR : ℚ := if extracted > 0 then (correct : ℚ) / (extracted : ℚ) else 0
  let recallR : ℚ := if total > 0 then (correct : ℚ) / (total : ℚ) else 0
  let f1R : ℚ := if precisionR + recallR > 0 then 2 * (precisionR * recallR) / (precisionR + recallR) else 0
  ⟨total, extracted, correct, precisionR, recallR, f1R⟩

/-- The weight table of `calculateAllMetrics`, including the
`weights[field] || 1.0` default. -/
def weightOf (field : String) : ℚ :=
  if field = "airlineCode" ∨ field = "departureAirportCode" ∨
     field = "arrivalAirportCode" ∨ field = "flightDate" then 1/2
  else if field = "aircraftName" ∨ field = "flightTime" then 3/2
  else 1

/-- The overall weighted F1 of `calculateAllMetrics`:
`Σ (f1 · weight) / Σ weight` over the supplied field list, `0` when the
total weight is not positive. -/
def calculateAllMetricsOverall (results : List EvalResult) (fields : List String) : ℚ :=
  let weightedF1Sum := (fields.map (fun f => (calculateFieldMetrics results f).f1Raw * weightOf f)).sum
  let totalWeight := (fields.map weightOf).sum
  if totalWeight > 0 then weightedF1Sum / totalWeight else 0

/-- The six scored fields, as passed by `generateMarkdownReport`
(flightNumber deliberately absent). -/
def scoredFields : List String :=
  ["airlineCode", "departureAirportCode", "arrivalAirportCode",
   "flightDate", "aircraftName", "flightTime"]

/-- All numeric grades of a batch, in order: the source walks every
result's comparison values and keeps the grades with
`typeof c.grade === 'number'`. -/
def gradeList : List EvalResult → List ℚ
  | [] => []
  | r :: rest => r.comparison.values.filterMap FieldComparison.grade ++ gradeList rest

/-- Summary statistics (raw average grade; the percent string of the
source is presentation only). -/
structure SummaryStats where
  totalFlights : Nat
  perfectMatches : Nat
  withData : Nat
  flaggedCount : Nat
  avgGradeRaw : ℚ
deriving DecidableEq, Repr

/-- `getSummaryStats` from the metrics module.  A perfect match requires
`Object.values(r.comparison).every(c => c && c.match === true)`, i.e.
every one of the seven comparisons, the flightNumber one included. -/
def getSummaryStats (results : List EvalResult) : SummaryStats :=
  let totalFlights := results.length
  let perfectMatches := results.countP (fun r =>
    r.comparison.values.all (fun c => c.match_ = some true))
  let withData := results.countP (fun r => r.extracted.values.any presentVal)
  let flaggedCount := results.countP (fun r => ¬ r.flags.isEmpty)
  let grades := gradeList results
  let avgGrade : ℚ := if grades.length > 0 then grades.sum / (grades.length : ℚ) else 0
  ⟨totalFlights, perfectMatches, withData, flaggedCount, avgGrade⟩

/-! ## Facts about the comparator -/

/-- In every branch of `compareField`, `grade` is defined exactly when
`match` is defined (the excluded verdict sets both to `null`). -/
theorem compareField_grade_isSome_eq (field : String) (e g : JsVal) :
    (compareField field e g).grade.isSome = (compareField field e g).match_.isSome := by
  unfold compareField
  repeat' split
  all_goals rfl

/-- C1. The claim demands the excluded verdict for every input, the
null-like inputs included; but the null/`'null'` short-circuit precedes
the field switch, so a missing flight number is graded
`{match: false, grade: 0}`. -/
theorem c1_counterexample :
    (compareField "flightNumber" JsVal.vnull (JsVal.vstr "920")).match_ ≠ none ∧
    compareField "flightNumber" JsVal.vnull (JsVal.vstr "920") = ⟨some false, some 0⟩ := by
  constructor
  · simp [compareField, truthy]
  · simp [compareField, truthy]

/-- C1 (amended): `compareField('flightNumber', x, y)` returns the
excluded verdict `{match: null, grade: null}` exactly when the extracted
value `x` is truthy and not the literal string `'null'`; a null, missing,
empty or `'null'` value short-circuits to `{match: false, grade: 0.0}`. -/
theorem c1_flightNumber_policy (x y : JsVal) :
    compareField "flightNumber" x y =
      if truthy x = true ∧ x ≠ JsVal.vstr "null" then ⟨none, none⟩
      else ⟨some false, some 0⟩ := by
  by_cases h1 : truthy x = true
  · by_cases h2 : x = JsVal.vstr "null"
    · simp [compareField, h1, h2]
    · simp [compareField, h1, h2]
  · simp [compareField, h1]

/-- A digit is none of the whitespace characters `Number()` strips. -/
theorem digit_not_ws (c : Char) (h : c.isDigit = true) : isWsChar c = false := by
  by_contra hws
  rw [Bool.not_eq_false] at hws
  simp only [isWsChar, decide_eq_true_eq] at hws
  rcases hws with h1 | h1 | h1 | h1 | h1 | h1 <;> subst h1 <;> exact absurd h (by decide)

/-- Whitespace stripping does not touch a digit run. -/
theorem dropWhile_ws_digits (cs : List Char) (h : cs.all Char.isDigit = true) :
    cs.dropWhile isWsChar = cs := by
  cases cs with
  | nil => rfl
  | cons c rest =>
      simp only [List.all_cons, Bool.and_eq_true] at h
      rw [List.dropWhile_cons]
      simp [digit_not_ws c h.1]

theorem trimWs_digits (cs : List Char) (h : cs.all Char.isDigit = true) :
    trimWs cs = cs := by
  have h2 : cs.reverse.all Char.isDigit = true := by simpa [List.all_reverse] using h
  unfold trimWs
  rw [dropWhile_ws_digits cs h, dropWhile_ws_digits cs.reverse h2, List.reverse_reverse]

theorem takeWhile_digits (cs : List Char) (h : cs.all Char.isDigit = true) :
    cs.takeWhile Char.isDigit = cs := by
  induction cs with
  | nil => rfl
  | cons c rest ih =>
      simp only [List.all_cons, Bool.and_eq_true] at h
      rw [List.takeWhile_cons]
      simp [h.1, ih h.2]

theorem dropWhile_digits (cs : List Char) (h : cs.all Char.isDigit = true) :
    cs.dropWhile Char.isDigit = [] := by
  induction cs with
  | nil => rfl
  | cons c rest ih =>
      simp only [List.all_cons, Bool.and_eq_true] at h
      rw [List.dropWhile_cons]
      simp [h.1, ih h.2]

/-- A nonempty digit run is a plain decimal literal. -/
theorem parseDecimal_digits (cs : List Char) (h1 : cs ≠ []) (h2 : cs.all Char.isDigit = true) :
    parseDecimal cs = some (digitsVal cs) := by
  simp only [parseDecimal, takeWhile_digits cs h2, dropWhile_digits cs h2]
  simp [parseExpPart, h1]

/-- `Number()` on a nonempty digit run is its decimal value. -/
theorem jsNumber_digits (s : String) (h1 : s.data ≠ []) (h2 : s.data.all Char.isDigit = true) :
    jsNumber s = some (digitsVal s.data) := by
  have ht : trimWs s.data = s.data := trimWs_digits _ h2
  have hmem : ∀ c ∈ s.data, c.isDigit = true := by
    intro c hc
    exact List.all_eq_true.mp h2 c hc
  have hno : ∀ c : Char, c.isDigit = false → ¬ s.data.take 2 = ['0', c] := by
    intro c hc heq
    have hcm : c ∈ s.data := List.take_subset 2 s.data (by rw [heq]; simp)
    have h3 := hmem c hcm
    rw [hc] at h3
    exact Bool.noConfusion h3
  obtain ⟨d, rest, hcs⟩ : ∃ d rest, s.data = d :: rest := by
    cases hq : s.data with
    | nil => exact absurd hq h1
    | cons d rest => exact ⟨d, rest, rfl⟩
  have hd : d.isDigit = true := hmem d (by rw [hcs]; exact List.mem_cons_self _ _)
  have hA : ¬ (s.data.take 2 = ['0', 'x'] ∨ s.data.take 2 = ['0', 'X']) := by
    rintro (h | h)
    · exact hno 'x' (by decide) h
    · exact hno 'X' (by decide) h
  have hB : ¬ (s.data.take 2 = ['0', 'o'] ∨ s.data.take 2 = ['0', 'O']) := by
    rintro (h | h)
    · exact hno 'o' (by decide) h
    · exact hno 'O' (by decide) h
  have hC : ¬ (s.data.take 2 = ['0', 'b'] ∨ s.data.take 2 = ['0', 'B']) := by
    rintro (h | h)
    · exact hno 'b' (by decide) h
    · exact hno 'B' (by decide) h
  have hD : ¬ s.data.head? = some '+' := by
    rw [hcs]
    simp only [List.head?_cons, Option.some.injEq]
    intro heq; rw [heq] at hd; exact absurd hd (by decide)
  have hE : ¬ s.data.head? = some '-' := by
    rw [hcs]
    simp only [List.head?_cons, Option.some.injEq]
    intro heq; rw [heq] at hd; exact absurd hd (by decide)
  have hF : ¬ s.data = "Infinity".data := by
    rw [hcs, show "Infinity".data = 'I' :: "nfinity".data from rfl]
    intro heq
    injection heq with hd1 _
    rw [hd1] at hd
    exact absurd hd (by decide)
  simp only [jsNumber]
  rw [ht]
  simp only [h1, hA, hB, hC, hD, hE, hF, if_false, ite_false, if_neg]
  exact parseDecimal_digits _ h1 h2

/-- `timeToMinutes` on a string made of two digit runs around one `':'`. -/
theorem timeToMinutes_two_runs (s h m : String)
    (hs : splitColon s = [h, m]) (hs1 : s ≠ "") (hs2 : s ≠ "null")
    (hh1 : h.data ≠ []) (hh2 : h.data.all Char.isDigit = true)
    (hm1 : m.data ≠ []) (hm2 : m.data.all Char.isDigit = true) :
    timeToMinutes (.vstr s) =
      some ((digitsVal h.data : ℚ) * 60 + (digitsVal m.data : ℚ)) := by
  simp only [timeToMinutes, hs1, hs2]
  rw [hs]
  simp [jsNumber_digits h hh1 hh2, jsNumber_digits m hm1 hm2]

/-- The duration `"01:30"` is 90 minutes. -/
theorem timeToMinutes_0130 : timeToMinutes (.vstr "01:30") = some 90 := by
  rw [timeToMinutes_two_runs "01:30" "01" "30" (by decide) (by decide) (by decide)
    (by decide) (by decide) (by decide) (by decide)]
  norm_num [show digitsVal "01".data = 1 from by decide,
            show digitsVal "30".data = 30 from by decide]

/-- C5 counterexample. `'1.5:30'` is not an HH:MM duration string, yet the
code does not fail closed on it: `Number('1.5')` is 1.5, so the string
parses to 1.5·60+30 = 120 minutes, and against `'02:00'` (also 120) it
returns `{match: true, grade: 1.0}` where the claim demands
`{match: false, grade: 0.0}` for unparsable input. -/
theorem c5_counterexample :
    isHHMM "1.5:30" = false ∧
    compareField "flightTime" (.vstr "1.5:30") (.vstr "02:00") = ⟨some true, some 1⟩ := by
  constructor
  · decide
  · have hj : jsNumber "1.5" = some (3/2) := by
      have ht : trimWs "1.5".data = ['1', '.', '5'] := by decide
      have hpd : parseDecimal ['1', '.', '5'] = some (3/2) := by
        have h1 : List.takeWhile Char.isDigit ['1', '.', '5'] = ['1'] := by decide
        have h2 : List.dropWhile Char.isDigit ['1', '.', '5'] = ['.', '5'] := by decide
        have h3 : List.takeWhile Char.isDigit ['5'] = ['5'] := by decide
        have h4 : List.dropWhile Char.isDigit ['5'] = [] := by decide
        simp only [parseDecimal, h1, h2, h3, h4]
        norm_num [parseExpPart, show digitsVal ['1'] = 1 from by decide,
                  show digitsVal ['5'] = 5 from by decide]
      simp only [jsNumber]
      rw [ht]
      simp [hpd]
    have hj30 : jsNumber "30" = some 30 := by
      rw [jsNumber_digits "30" (by decide) (by decide)]
      norm_num [show digitsVal "30".data = 30 from by decide]
    have h1 : timeToMinutes (.vstr "1.5:30") = some 120 := by
      have hsp : splitColon "1.5:30" = ["1.5", "30"] := by decide
      have hne : ¬ ("1.5:30" = "" ∨ "1.5:30" = "null") := by decide
      simp only [timeToMinutes, hsp]
      rw [if_neg hne]
      norm_num [hj, hj30]
    have h2 : timeToMinutes (.vstr "02:00") = some 120 := by
      rw [timeToMinutes_two_runs "02:00" "02" "00" (by decide) (by decide) (by decide)
        (by decide) (by decide) (by decide) (by decide)]
      norm_num [show digitsVal "02".data = 2 from by decide,
                show digitsVal "00".data = 0 from by decide]
    have hd : getTimeDiffMinutes (.vstr "1.5:30") (.vstr "02:00") = some 0 := by
      simp [getTimeDiffMinutes, h1, h2]
    have hle : ((0 : ℚ) ≤ 15) := by norm_num
    simp [compareField, truthy, hd, hle]

/-- C5 (amended). For parseable HH:MM duration strings the inclusive tier
rule holds: difference at most 15 gives `{true, 1.0}`, at most 30 gives
`{true, 0.7}`, above 30 gives `{false, 0.0}`.  The fail-closed clause
holds relative to the code's own `Number()` parsing: whenever the minute
conversion yields no finite difference (a side null, missing, `'null'` or
Number-unparsable), the verdict is `{match: false, grade: 0.0}` — but
`Number()`'s leniency lets non-HH:MM strings such as `'1.5:30'` parse to
finite minutes and be compared normally (see the counterexample). -/
theorem c5_flightTime_tiers :
    (∀ e g : String, ∀ me mg : ℚ,
        isHHMM e = true → isHHMM g = true →
        timeToMinutes (.vstr e) = some me → timeToMinutes (.vstr g) = some mg →
        compareField "flightTime" (.vstr e) (.vstr g) =
          (if |me - mg| ≤ 15 then ⟨some true, some 1⟩
           else if |me - mg| ≤ 30 then ⟨some true, some (7/10)⟩
           else ⟨some false, some 0⟩)) ∧
    (∀ e g : JsVal, getTimeDiffMinutes e g = none →
        compareField "flightTime" e g = ⟨some false, some 0⟩) := by
  constructor
  · intro e g me mg _ _ he hg
    have he1 : e ≠ "" := by
      intro h; rw [h] at he; simp [timeToMinutes] at he
    have he2 : e ≠ "null" := by
      intro h; rw [h] at he; simp [timeToMinutes] at he
    have hd : getTimeDiffMinutes (.vstr e) (.vstr g) = some |me - mg| := by
      simp [getTimeDiffMinutes, he, hg]
    simp [compareField, truthy, he1, he2, hd]
  · intro e g hd
    by_cases h1 : truthy e = true
    · by_cases h2 : e = JsVal.vstr "null"
      · simp [compareField, h1, h2]
      · simp [compareField, h1, h2, hd]
    · simp [compareField, h1]

/-- C5 witness: a 15-minute difference sits on the inclusive full-credit
boundary. -/
theorem c5_witness :
    compareField "flightTime" (.vstr "01:30") (.vstr "01:45") = ⟨some true, some 1⟩ := by
  have h45 : timeToMinutes (.vstr "01:45") = some 105 := by
    rw [timeToMinutes_two_runs "01:45" "01" "45" (by decide) (by decide) (by decide)
      (by decide) (by decide) (by decide) (by decide)]
    norm_num [show digitsVal "01".data = 1 from by decide,
              show digitsVal "45".data = 45 from by decide]
  have h := c5_flightTime_tiers.1 "01:30" "01:45" 90 105 (by decide) (by decide)
    timeToMinutes_0130 h45
  have habs : |(90 : ℚ) - 105| = 15 := by
    rw [show (90 : ℚ) - 105 = -15 from by norm_num, abs_neg]
    exact abs_of_nonneg (by norm_num)
  rw [h, habs]
  norm_num

/-- C6. `compareField('aircraftName', e, g)` on non-null names is
three-tier: exact equality grades 1.0; otherwise membership of both names
in one family of the static table grades 0.8; otherwise 0.0.  The three
concrete examples of the spec hold. -/
theorem c6_aircraftName_three_tier :
    (∀ e g : String, e ≠ "" → e ≠ "null" → g ≠ "" →
        compareField "aircraftName" (.vstr e) (.vstr g) =
          (if e = g then ⟨some true, some 1⟩
           else if AIRCRAFT_FAMILIES.any (fun fam => fam.2.contains e && fam.2.contains g) then
             ⟨some true, some (8/10)⟩
           else ⟨some false, some 0⟩)) ∧
    compareField "aircraftName" (.vstr "Boeing 737MAX") (.vstr "Boeing 737NG") =
      ⟨some true, some (8/10)⟩ ∧
    compareField "aircraftName" (.vstr "Boeing 737NG") (.vstr "Boeing 737NG") =
      ⟨some true, some 1⟩ ∧
    compareField "aircraftName" (.vstr "Airbus A320") (.vstr "Boeing 737NG") =
      ⟨some false, some 0⟩ := by
  refine ⟨?_, ?_, ?_, ?_⟩
  · intro e g he1 he2 hg1
    by_cases heg : e = g
    · subst heg
      simp [compareField, truthy, jsEq, he1, he2]
    · have ht1 : truthy (.vstr e) = true := by simp [truthy, he1]
      have ht2 : truthy (.vstr g) = true := by simp [truthy, hg1]
      have hsf : isSameFamily (.vstr e) (.vstr g) =
          AIRCRAFT_FAMILIES.any (fun fam => fam.2.contains e && fam.2.contains g) := by
        simp [isSameFamily, ht1, ht2, jsEq, heg, memberOf]
      simp [compareField, ht1, he2, jsEq, heg]
      rw [hsf]
  · have hfam : isSameFamily (.vstr "Boeing 737MAX") (.vstr "Boeing 737NG") = true := by decide
    simp [compareField, truthy, jsEq, hfam]
  · simp [compareField, truthy, jsEq]
  · have hfam : isSameFamily (.vstr "Airbus A320") (.vstr "Boeing 737NG") = false := by decide
    simp [compareField, truthy, jsEq, hfam]

/-- C6 witness: the general three-tier rule applied to the family-match
example. -/
theorem c6_witness :
    compareField "aircraftName" (.vstr "Boeing 737MAX") (.vstr "Boeing 737NG") =
      ⟨some true, some (8/10)⟩ := by
  have h := c6_aircraftName_three_tier.1 "Boeing 737MAX" "Boeing 737NG"
    (by decide) (by decide) (by decide)
  simpa using h

/-- C7. For the four exact-match fields, a non-null value compared with
itself grades 1.0 and unequal values grade 0.0: exact string equality is
the whole policy. -/
theorem c7_exact_fields :
    ∀ f ∈ (["airlineCode", "departureAirportCode",
            "arrivalAirportCode", "flightDate"] : List String),
      ∀ v w : String, v ≠ "" → v ≠ "null" →
        compareField f (.vstr v) (.vstr v) = ⟨some true, some 1⟩ ∧
        (v ≠ w → compareField f (.vstr v) (.vstr w) = ⟨some false, some 0⟩) := by
  intro f hf v w h1 h2
  fin_cases hf <;>
    exact ⟨by simp [compareField, truthy, jsEq, h1, h2],
           fun hne => by simp [compareField, truthy, jsEq, h1, h2, hne]⟩

/-- C7 witness: the exact-match rule at a concrete airline code. -/
theorem c7_witness :
    compareField "airlineCode" (.vstr "WN") (.vstr "WN") = ⟨some true, some 1⟩ ∧
    compareField "airlineCode" (.vstr "WN") (.vstr "DL") = ⟨some false, some 0⟩ := by
  have h := c7_exact_fields "airlineCode" (by simp) "WN" "DL" (by decide) (by decide)
  exact ⟨h.1, h.2 (by decide)⟩

/-- C10. `compareField` only ever produces the grades `null`, 0.0, 0.7,
0.8 and 1.0, for every field name and all argument values; an
unrecognized field name always yields `{match: false, grade: 0.0}`. -/
theorem c10_grade_codomain :
    ∀ (field : String) (e g : JsVal),
      ((compareField field e g).grade = none ∨
       (compareField field e g).grade = some 0 ∨
       (compareField field e g).grade = some (7/10) ∨
       (compareField field e g).grade = some (8/10) ∨
       (compareField field e g).grade = some 1) ∧
      (field ∉ allFields → compareField field e g = ⟨some false, some 0⟩) := by
  intro field e g
  constructor
  · unfold compareField
    repeat' split
    all_goals simp
  · intro hf
    simp only [allFields, List.mem_cons, List.not_mem_nil, or_false] at hf
    push_neg at hf
    obtain ⟨hn1, hn2, hn3, hn4, hn5, hn6, hn7⟩ := hf
    unfold compareField
    split
    · rfl
    · simp [hn1, hn2, hn3, hn4, hn5, hn6, hn7]

/-- C10 witness: an unrecognized field name gets the conservative wrong
verdict. -/
theorem c10_witness :
    compareField "bogusField" (.vstr "x") JsVal.vnull = ⟨some false, some 0⟩ :=
  (c10_grade_codomain "bogusField" (.vstr "x") JsVal.vnull).2 (by decide)

/-! ## Facts about the aggregate scorer -/

/-- C8. `calculateFieldMetrics` is total and guards every division:
precision is `correct/extracted` only when `extracted > 0` and `0`
otherwise, recall is `correct/total` only when `total > 0` and `0`
otherwise, F1 is the harmonic-mean formula only when `precision + recall`
is positive and `0` otherwise; on an empty batch every raw metric is 0. -/
theorem c8_metrics_guards :
    ∀ (results : List EvalResult) (field : String),
      (calculateFieldMetrics results field).precisionRaw =
        (if (calculateFieldMetrics results field).extracted > 0
         then ((calculateFieldMetrics results field).correct : ℚ) /
              ((calculateFieldMetrics results field).extracted : ℚ) else 0) ∧
      (calculateFieldMetrics results field).recallRaw =
        (if (calculateFieldMetrics results field).total > 0
         then ((calculateFieldMetrics results field).correct : ℚ) /
              ((calculateFieldMetrics results field).total : ℚ) else 0) ∧
      (calculateFieldMetrics results field).f1Raw =
        (if (calculateFieldMetrics results field).precisionRaw +
              (calculateFieldMetrics results field).recallRaw > 0
         then 2 * ((calculateFieldMetrics results field).precisionRaw *
                   (calculateFieldMetrics results field).recallRaw) /
              ((calculateFieldMetrics results field).precisionRaw +
               (calculateFieldMetrics results field).recallRaw) else 0) ∧
      calculateFieldMetrics ([] : List EvalResult) field = ⟨0, 0, 0, 0, 0, 0⟩ := by
  intro results field
  refine ⟨?_, ?_, ?_, ?_⟩ <;> simp [calculateFieldMetrics]

/-- The end-to-end scenario of the spec: ground truth record. -/
def gt2 : FlightRecord :=
  ⟨.vundefined, .vstr "WN", .vstr "LAS", .vstr "ABQ", .vstr "16-12-2025",
   .vstr "Boeing 737NG", .vstr "01:30"⟩

/-- The end-to-end scenario of the spec: extracted record. -/
def ex2 : FlightRecord :=
  ⟨.vundefined, .vstr "WN", .vstr "LAS", .vstr "ABQ", .vstr "16-12-2025",
   .vstr "Boeing 737MAX", .vstr "01:50"⟩

/-- The seven comparisons of the end-to-end scenario, computed. -/
theorem hcomp2 : compareAllFields ex2 gt2 =
    ⟨⟨some false, some 0⟩, ⟨some true, some 1⟩, ⟨some true, some 1⟩, ⟨some true, some 1⟩,
     ⟨some true, some 1⟩, ⟨some true, some (8/10)⟩, ⟨some true, some (7/10)⟩⟩ := by
  have hfam : isSameFamily (.vstr "Boeing 737MAX") (.vstr "Boeing 737NG") = true := by decide
  have h50 : timeToMinutes (.vstr "01:50") = some 110 := by
    rw [timeToMinutes_two_runs "01:50" "01" "50" (by decide) (by decide) (by decide)
      (by decide) (by decide) (by decide) (by decide)]
    norm_num [show digitsVal "01".data = 1 from by decide,
              show digitsVal "50".data = 50 from by decide]
  have habs : |(110 : ℚ) - 90| = 20 := by
    rw [show (110 : ℚ) - 90 = 20 from by norm_num]
    exact abs_of_nonneg (by norm_num)
  have hdiff : getTimeDiffMinutes (.vstr "01:50") (.vstr "01:30") = some 20 := by
    simp only [getTimeDiffMinutes, h50, timeToMinutes_0130, habs]
  have hle1 : ¬ ((20 : ℚ) ≤ 15) := by norm_num
  have hle2 : ((20 : ℚ) ≤ 30) := by norm_num
  simp [compareAllFields, ex2, gt2, compareField, truthy, jsEq, hfam, hdiff, hle1, hle2]

/-- The end-to-end scenario as a one-case batch. -/
def r2 : EvalResult := ⟨ex2, compareAllFields ex2 gt2, []⟩

/-- Per-field metrics of the one-case scenario batch: with every scored
match verdict `true`, each field has precision, recall and F1 equal 1. -/
theorem r2_metrics_one : ∀ f ∈ scoredFields, calculateFieldMetrics [r2] f = ⟨1, 1, 1, 1, 1, 1⟩ := by
  intro f hf
  fin_cases hf <;>
    · simp only [r2, hcomp2]
      simp [calculateFieldMetrics, getComp, getField, presentVal, ex2,
            List.countP_cons, List.countP_nil]
      norm_num

/-- Overall weighted F1 of the scenario batch equals 1. -/
theorem r2_overall_one : calculateAllMetricsOverall [r2] scoredFields = 1 := by
  simp [calculateAllMetricsOverall, scoredFields, r2_metrics_one, weightOf]
  norm_num

/-- C2 counterexample. In the end-to-end scenario the overall weighted F1
is exactly 1, not 0.85 and not strictly below 1: per-field F1 is computed
from the binary match verdicts, which are all `true` here, not from the
fractional grades. -/
theorem c2_counterexample :
    calculateAllMetricsOverall [r2] scoredFields = 1 ∧
    ¬ calculateAllMetricsOverall [r2] scoredFields < 1 := by
  refine ⟨r2_overall_one, ?_⟩
  rw [r2_overall_one]
  exact lt_irrefl 1

/-- C2 (amended): the six scored comparisons of the scenario carry the
grades [1.0, 1.0, 1.0, 1.0, 0.8, 0.7], and the overall weighted F1 of the
one-case batch equals 1.0 (F1 aggregates match verdicts, not grades). -/
theorem c2_scenario :
    ((compareAllFields ex2 gt2).values.drop 1).map FieldComparison.grade =
      [some 1, some 1, some 1, some 1, some (8/10), some (7/10)] ∧
    calculateAllMetricsOverall [r2] scoredFields = 1 := by
  refine ⟨?_, r2_overall_one⟩
  rw [hcomp2]
  simp [Comparison.values]

/-- A test case whose extraction reproduces the ground truth exactly,
every field present (flight number included). -/
def ex3 : FlightRecord :=
  ⟨.vstr "920", .vstr "WN", .vstr "LAS", .vstr "ABQ", .vstr "16-12-2025",
   .vstr "Boeing 737NG", .vstr "01:30"⟩

/-- The perfect case as a one-case batch. -/
def r3 : EvalResult := ⟨ex3, compareAllFields ex3 ex3, []⟩

/-- The comparisons of the perfect case: six scored `true` verdicts and
the excluded flightNumber. -/
theorem hcomp3 : compareAllFields ex3 ex3 =
    ⟨⟨none, none⟩, ⟨some true, some 1⟩, ⟨some true, some 1⟩, ⟨some true, some 1⟩,
     ⟨some true, some 1⟩, ⟨some true, some 1⟩, ⟨some true, some 1⟩⟩ := by
  have habs : |(90 : ℚ) - 90| = 0 := by norm_num
  have hd : getTimeDiffMinutes (.vstr "01:30") (.vstr "01:30") = some 0 := by
    simp only [getTimeDiffMinutes, timeToMinutes_0130, habs]
  have hle : ((0 : ℚ) ≤ 15) := by norm_num
  simp [compareAllFields, ex3, compareField, truthy, jsEq, hd, hle]

/-- C3. A perfectly extracted case — every scored comparison has
match `true`, the flightNumber comparison is the excluded `null` — is
counted by `getSummaryStats` as 0 perfect matches, because the
`every`-test also requires `match === true` of the excluded flightNumber
comparison, which is never `true`.  The claim (and the report line "all
fields correct") expects such a case to count, i.e. `perfectMatches = 1`
here; the statistic is identically zero on pipeline-built batches. -/
theorem c3_perfect_matches_bug :
    (compareAllFields ex3 ex3).flightNumber.match_ = none ∧
    (compareAllFields ex3 ex3).airlineCode.match_ = some true ∧
    (compareAllFields ex3 ex3).departureAirportCode.match_ = some true ∧
    (compareAllFields ex3 ex3).arrivalAirportCode.match_ = some true ∧
    (compareAllFields ex3 ex3).flightDate.match_ = some true ∧
    (compareAllFields ex3 ex3).aircraftName.match_ = some true ∧
    (compareAllFields ex3 ex3).flightTime.match_ = some true ∧
    (getSummaryStats [r3]).perfectMatches = 0 := by
  refine ⟨?_, ?_, ?_, ?_, ?_, ?_, ?_, ?_⟩ <;>
    (simp only [r3, hcomp3]; try decide)

/-- A batch member whose extraction found only the airline code; the
missing flightNumber is short-circuited to a graded `{false, 0.0}`
comparison rather than the excluded verdict. -/
def gt4 : FlightRecord :=
  ⟨.vstr "920", .vstr "WN", .vstr "LAS", .vstr "ABQ", .vstr "16-12-2025",
   .vstr "Boeing 737NG", .vstr "01:30"⟩

def ex4 : FlightRecord :=
  ⟨.vnull, .vstr "WN", .vnull, .vnull, .vnull, .vnull, .vnull⟩

def r4 : EvalResult := ⟨ex4, compareAllFields ex4 gt4, []⟩

/-- The comparisons of the airline-only case, computed. -/
theorem hcomp4 : compareAllFields ex4 gt4 =
    ⟨⟨some false, some 0⟩, ⟨some true, some 1⟩, ⟨some false, some 0⟩, ⟨some false, some 0⟩,
     ⟨some false, some 0⟩, ⟨some false, some 0⟩, ⟨some false, some 0⟩⟩ := by
  simp [compareAllFields, ex4, gt4, compareField, truthy, jsEq]

/-- C4 counterexample. In the airline-only case the code averages over
seven numeric grades — the missing flightNumber contributes its 0.0 — so
`avgGrade = 1/7`, while the mean over the six grades not attributed to
flightNumber is `1/6`. -/
theorem c4_counterexample :
    (getSummaryStats [r4]).avgGradeRaw = 1/7 ∧
    ((r4.comparison.values.drop 1).filterMap FieldComparison.grade).sum /
      ((((r4.comparison.values.drop 1).filterMap FieldComparison.grade).length : ℚ)) = 1/6 ∧
    (getSummaryStats [r4]).avgGradeRaw ≠
      ((r4.comparison.values.drop 1).filterMap FieldComparison.grade).sum /
        ((((r4.comparison.values.drop 1).filterMap FieldComparison.grade).length : ℚ)) := by
  refine ⟨?_, ?_, ?_⟩ <;>
    · simp only [r4, hcomp4]
      simp [getSummaryStats, gradeList, Comparison.values]
      try norm_num

/-- Grades of the non-excluded comparisons of a batch, in batch order. -/
def nonExcludedGrades : List EvalResult → List ℚ
  | [] => []
  | r :: rest =>
      (r.comparison.values.filter (fun c => c.match_.isSome)).filterMap
          FieldComparison.grade ++
        nonExcludedGrades rest

/-- Restricting to defined `match` before collecting grades changes
nothing when `match` and `grade` are defined together. -/
theorem filter_isSome_filterMap_grade (l : List FieldComparison)
    (h : ∀ c ∈ l, c.match_.isSome = c.grade.isSome) :
    (l.filter (fun c => c.match_.isSome)).filterMap FieldComparison.grade =
      l.filterMap FieldComparison.grade := by
  induction l with
  | nil => rfl
  | cons c rest ih =>
    have hc := h c (List.mem_cons_self c rest)
    have hrest : ∀ x ∈ rest, x.match_.isSome = x.grade.isSome :=
      fun x hx => h x (List.mem_cons_of_mem c hx)
    cases hg : c.grade with
    | none =>
      have hm : c.match_.isSome = false := by rw [hc, hg]; rfl
      simp [List.filter_cons, List.filterMap_cons, hm, hg, ih hrest]
    | some q =>
      have hm : c.match_.isSome = true := by rw [hc, hg]; rfl
      simp [List.filter_cons, List.filterMap_cons, hm, hg, ih hrest]

/-- In every comparison produced by `compareAllFields`, `match` and
`grade` are defined together. -/
theorem compareAllFields_match_grade (e g : FlightRecord) :
    ∀ c ∈ (compareAllFields e g).values, c.match_.isSome = c.grade.isSome := by
  intro c hc
  simp [compareAllFields, Comparison.values] at hc
  rcases hc with h | h | h | h | h | h | h <;>
    · subst h; exact (compareField_grade_isSome_eq _ _ _).symm

/-- On a pipeline-built batch, the numeric grades collected by
`getSummaryStats` are exactly the grades of the non-excluded
comparisons. -/
theorem gradeList_eq_nonExcluded (results : List EvalResult)
    (h : ∀ r ∈ results, ∃ e g, r.comparison = compareAllFields e g) :
    gradeList results = nonExcludedGrades results := by
  induction results with
  | nil => rfl
  | cons r rest ih =>
    obtain ⟨e, g, hr⟩ := h r (List.mem_cons_self r rest)
    have hrest := fun x hx => h x (List.mem_cons_of_mem r hx)
    have hall : ∀ c ∈ r.comparison.values, c.match_.isSome = c.grade.isSome := by
      rw [hr]; exact compareAllFields_match_grade e g
    simp [gradeList, nonExcludedGrades, filter_isSome_filterMap_grade _ hall, ih hrest]

/-- C4 (amended): `avgGrade` is the mean of all numeric grades, which on a
pipeline-built batch are exactly the grades of the non-excluded
comparisons; a flightNumber comparison is excluded only when its extracted
value is present, so a missing flightNumber contributes a 0.0 grade. -/
theorem c4_avg_grade (results : List EvalResult)
    (h : ∀ r ∈ results, ∃ e g, r.comparison = compareAllFields e g) :
    (getSummaryStats results).avgGradeRaw =
      (if (nonExcludedGrades results).length > 0
       then (nonExcludedGrades results).sum / ((nonExcludedGrades results).length : ℚ)
       else 0) := by
  have hg := gradeList_eq_nonExcluded results h
  simp [getSummaryStats, hg]

/-- C4 witness: the amended mean, instantiated on the airline-only case. -/
theorem c4_witness :
    (getSummaryStats [r4]).avgGradeRaw =
      (if (nonExcludedGrades [r4]).length > 0
       then (nonExcludedGrades [r4]).sum / ((nonExcludedGrades [r4]).length : ℚ)
       else 0) :=
  c4_avg_grade [r4] (by
    intro r hr
    simp only [List.mem_singleton] at hr
    subst hr
    exact ⟨ex4, gt4, rfl⟩)

/-- Two results that agree on every extracted value and every comparison
except possibly the flightNumber ones. -/
def agreesExceptFlightNumber (r r' : EvalResult) : Prop :=
  r.extracted.airlineCode = r'.extracted.airlineCode ∧
  r.extracted.departureAirportCode = r'.extracted.departureAirportCode ∧
  r.extracted.arrivalAirportCode = r'.extracted.arrivalAirportCode ∧
  r.extracted.flightDate = r'.extracted.flightDate ∧
  r.extracted.aircraftName = r'.extracted.aircraftName ∧
  r.extracted.flightTime = r'.extracted.flightTime ∧
  r.comparison.airlineCode = r'.comparison.airlineCode ∧
  r.comparison.departureAirportCode = r'.comparison.departureAirportCode ∧
  r.comparison.arrivalAirportCode = r'.comparison.arrivalAirportCode ∧
  r.comparison.flightDate = r'.comparison.flightDate ∧
  r.comparison.aircraftName = r'.comparison.aircraftName ∧
  r.comparison.flightTime = r'.comparison.flightTime

/-- `countP` is determined by the pointwise values of the predicate. -/
theorem countP_congr_forall2 {α β : Type} (p : α → Bool) (q : β → Bool) :
    ∀ {l : List α} {l' : List β}, List.Forall₂ (fun a b => p a = q b) l l' →
      l.countP p = l'.countP q := by
  intro l l' h
  induction h with
  | nil => rfl
  | cons hab hrest ih => simp [List.countP_cons, hab, ih]

/-- A scored field's metrics only read that field's extracted value and
comparison, so they are invariant under flightNumber-only changes. -/
theorem fieldMetrics_congr (f : String) (hf : f ∈ scoredFields)
    (results results' : List EvalResult)
    (h : List.Forall₂ agreesExceptFlightNumber results results') :
    calculateFieldMetrics results f = calculateFieldMetrics results' f := by
  have hlen : results.length = results'.length := h.length_eq
  have hext : results.countP (fun r => presentVal (getField r.extracted f)) =
      results'.countP (fun r => presentVal (getField r.extracted f)) := by
    refine countP_congr_forall2 _ _ (h.imp ?_)
    intro a b hab
    obtain ⟨e1, e2, e3, e4, e5, e6, c1, c2, c3, c4, c5, c6⟩ := hab
    fin_cases hf <;> simp [getField, e1, e2, e3, e4, e5, e6]
  have hcor : results.countP (fun r =>
        match getComp r.comparison f with
        | some c => c.match_ = some true
        | none => false) =
      results'.countP (fun r =>
        match getComp r.comparison f with
        | some c => c.match_ = some true
        | none => false) := by
    refine countP_congr_forall2 _ _ (h.imp ?_)
    intro a b hab
    obtain ⟨e1, e2, e3, e4, e5, e6, c1, c2, c3, c4, c5, c6⟩ := hab
    fin_cases hf <;> simp [getComp, c1, c2, c3, c4, c5, c6]
  simp only [calculateFieldMetrics, hlen, hext, hcor]

/-- C9. The overall score is the weighted mean `Σ(weight·f1)/Σ(weight)`
over exactly the six scored fields (weights 0.5 for the four
query-provided fields, 1.5 for aircraftName and flightTime, total 5), and
it is unchanged when only flightNumber data differs between two batches. -/
theorem c9_overall_weighted :
    (∀ results : List EvalResult,
        calculateAllMetricsOverall results scoredFields =
          ((calculateFieldMetrics results "airlineCode").f1Raw * (1/2) +
           (calculateFieldMetrics results "departureAirportCode").f1Raw * (1/2) +
           (calculateFieldMetrics results "arrivalAirportCode").f1Raw * (1/2) +
           (calculateFieldMetrics results "flightDate").f1Raw * (1/2) +
           (calculateFieldMetrics results "aircraftName").f1Raw * (3/2) +
           (calculateFieldMetrics results "flightTime").f1Raw * (3/2)) / 5) ∧
    (∀ results results' : List EvalResult,
        List.Forall₂ agreesExceptFlightNumber results results' →
        calculateAllMetricsOverall results scoredFields =
          calculateAllMetricsOverall results' scoredFields) := by
  constructor
  · intro results
    simp [calculateAllMetricsOverall, scoredFields, weightOf]
    norm_num
    ring
  · intro results results' h
    have h1 := fieldMetrics_congr "airlineCode" (by simp [scoredFields]) results results' h
    have h2 := fieldMetrics_congr "departureAirportCode" (by simp [scoredFields]) results results' h
    have h3 := fieldMetrics_congr "arrivalAirportCode" (by simp [scoredFields]) results results' h
    have h4 := fieldMetrics_congr "flightDate" (by simp [scoredFields]) results results' h
    have h5 := fieldMetrics_congr "aircraftName" (by simp [scoredFields]) results results' h
    have h6 := fieldMetrics_congr "flightTime" (by simp [scoredFields]) results results' h
    simp [calculateAllMetricsOverall, scoredFields, h1, h2, h3, h4, h5, h6]

/-- A perfect case with flight number `"920"`. -/
def exA : FlightRecord :=
  ⟨.vstr "920", .vstr "WN", .vstr "LAS", .vstr "ABQ", .vstr "16-12-2025",
   .vstr "Boeing 737NG", .vstr "01:30"⟩

/-- The same case with only the flight number changed to `"111"`. -/
def exB : FlightRecord :=
  ⟨.vstr "111", .vstr "WN", .vstr "LAS", .vstr "ABQ", .vstr "16-12-2025",
   .vstr "Boeing 737NG", .vstr "01:30"⟩

def rA : EvalResult := ⟨exA, compareAllFields exA exA, []⟩

def rB : EvalResult := ⟨exB, compareAllFields exB exB, []⟩

/-- C9 witness: two singleton batches differing only in flightNumber get
the same overall weighted score. -/
theorem c9_witness :
    calculateAllMetricsOverall [rA] scoredFields =
      calculateAllMetricsOverall [rB] scoredFields :=
  c9_overall_weighted.2 [rA] [rB]
    (List.Forall₂.cons
      ⟨rfl, rfl, rfl, rfl, rfl, rfl, rfl, rfl, rfl, rfl, rfl, rfl⟩
      List.Forall₂.nil)
